import Mathlib

set_option autoImplicit false

/-!
Shallow embedding of `src/confluence_sync/config.py` (package `confluence_sync`,
repository `charims/confluence-sync`).

Modelling conventions:
* YAML values (the result of `yaml.safe_load`) are the inductive `Yaml`.
  YAML mapping keys are restricted to strings (the only form the code's own
  files use; non-string keys would make `SyncConfig(**config_data)` raise a
  `TypeError`, outside every claim considered here).
* Python `dict`s of YAML data are association lists `List (String × Yaml)`
  with first-match lookup (`alGet`) and in-place update (`alSet`), which is
  exactly `dict.__getitem__` / `dict.__setitem__` on insertion-ordered dicts.
* The process environment is an association list `List (String × String)`.
  `load_dotenv()` only mutates the environment before resolution, so the
  `Env` argument models the post-dotenv environment.
* The file system is reduced to the state of the one config path:
  `FileState.absent`, or `FileState.present y` where `y` is the value
  `yaml.safe_load` yields for the file's content (an empty file yields
  `Yaml.null`, i.e. Python `None`).
* Exceptions raised during `load` are `Except.error` of `ConfigError`:
  the `ValueError` of line 46 is `formatNotMapping`; a `TypeError`/`ValueError`
  raised by `dict(...)` on line 58 is `dictConversion`; the (dead) `ValueError`
  of line 60 is `confluenceNotMapping`; the `ValueError` / `json.JSONDecodeError`
  of `_parse_ignore_patterns` (lines 103-105) is `ignorePatternsFormat`; a
  pydantic `ValidationError` is `validation locs` carrying the error locations
  (pydantic `loc` tuples, e.g. `["confluence", "api_token"]`).
* pydantic (v2) validation is modelled field by field: required `str` fields
  accept any string (including `""`); `Optional[str]` accepts a string, `None`,
  or absence; `Path` accepts a string (paths are modelled as strings);
  `list[str]` accepts a YAML list of strings; extra keys are ignored; all
  failing fields are collected into one `ValidationError`.
* Python `str.strip()` is `pyStrip` (strips the ASCII whitespace characters;
  Python additionally strips some rare Unicode spaces, which no claim uses),
  and `str.split(",")` is `pySplitComma`; both are structural recursions over
  the string's characters so that concrete runs reduce inside the kernel.
* `json.loads` is only ever used behind the guard
  `isinstance(parsed, list) and all(isinstance(x, str) ...)`; it is modelled by
  `jsonParseStringArray`, a JSON parser for arrays of string literals that
  answers `none` both when the input is not valid JSON and when it is valid
  JSON but not an array of strings — in either case line 103/105 raises and
  `load` fails, which is all any claim depends on. Escapes `\" \\ \/ \b \f
  \n \r \t \uXXXX` are supported (surrogate pairs are not combined).
-/

/-- A YAML value as produced by `yaml.safe_load` (scalars, sequences, mappings
with string keys). -/
inductive Yaml where
  | null
  | bool (b : Bool)
  | int (n : Int)
  | str (s : String)
  | list (xs : List Yaml)
  | map (kvs : List (String × Yaml))

/-- Python truthiness of a YAML value, as used by `if loaded:` (line 44),
`out.get("confluence") or {}` (line 58) and `if confluence:` (line 76). -/
def Yaml.truthy : Yaml → Bool
  | .null => false
  | .bool b => b
  | .int n => n != 0
  | .str s => s != ""
  | .list xs => !xs.isEmpty
  | .map kvs => !kvs.isEmpty

/-- Python `isinstance(x, dict)` on a YAML value. -/
def Yaml.isMap : Yaml → Bool
  | .map _ => true
  | _ => false

/-- An ASCII whitespace character as stripped by Python `str.strip()`. -/
def isSpaceChar (c : Char) : Bool :=
  c = ' ' || c = '\t' || c = '\n' || c = '\r' || c = '\x0b' || c = '\x0c'

/-- Python `s.strip()`: remove leading and trailing whitespace. -/
def pyStrip (s : String) : String :=
  String.mk (((s.data.dropWhile isSpaceChar).reverse.dropWhile isSpaceChar).reverse)

/-- Helper of `pySplitComma`: split the remaining characters at every comma,
`acc` holding the current (reversed) piece. -/
def splitCommaAux : List Char → List Char → List String
  | [], acc => [String.mk acc.reverse]
  | c :: cs, acc =>
    if c = ',' then String.mk acc.reverse :: splitCommaAux cs []
    else splitCommaAux cs (c :: acc)

/-- Python `s.split(",")`. -/
def pySplitComma (s : String) : List String :=
  splitCommaAux s.data []

/-- Python `s.startswith("[")`. -/
def startsWithBracket (s : String) : Bool :=
  match s.data with
  | '[' :: _ => true
  | _ => false

/-- Dictionary lookup `d.get(k)` / `d[k]` on an insertion-ordered dict. -/
def alGet : List (String × Yaml) → String → Option Yaml
  | [], _ => none
  | (k', v) :: rest, k => if k' = k then some v else alGet rest k

/-- Dictionary update `d[k] = v` on an insertion-ordered dict: an existing key
keeps its position, a new key is appended. -/
def alSet : List (String × Yaml) → String → Yaml → List (String × Yaml)
  | [], k, v => [(k, v)]
  | (k', v') :: rest, k, v => if k' = k then (k, v) :: rest else (k', v') :: alSet rest k v

/-- The process environment (after the optional `load_dotenv()` of lines 32-37). -/
abbrev Env := List (String × String)

/-- Python `os.getenv(name)`. -/
def getenv : Env → String → Option String
  | [], _ => none
  | (n, v) :: rest, name => if n = name then some v else getenv rest name

/-- `Config._get_env` (lines 90-96): read an environment variable, strip it,
and treat a missing or whitespace-only value as unset. -/
def getEnvTrimmed (env : Env) (name : String) : Option String :=
  match getenv env name with
  | none => none
  | some value =>
    let value := pyStrip value
    if value = "" then none else some value

/-- Removing every binding of a variable from the environment (used to state
that a blank variable behaves exactly as an unset one). -/
def eraseAll (name : String) : Env → Env
  | [] => []
  | (n, v) :: rest => if n = name then eraseAll name rest else (n, v) :: eraseAll name rest

/-- JSON insignificant whitespace skipping. -/
def skipWs : List Char → List Char
  | [] => []
  | c :: cs => if c = ' ' || c = '\t' || c = '\n' || c = '\r' then skipWs cs else c :: cs

/-- Value of one hexadecimal digit. -/
def hexVal (c : Char) : Option Nat :=
  if '0' ≤ c ∧ c ≤ '9' then some (c.toNat - '0'.toNat)
  else if 'a' ≤ c ∧ c ≤ 'f' then some (c.toNat - 'a'.toNat + 10)
  else if 'A' ≤ c ∧ c ≤ 'F' then some (c.toNat - 'A'.toNat + 10)
  else none

/-- JSON string-literal body (the part after the opening quote): returns the
decoded characters and the input remaining after the closing quote. -/
def parseJsonStringBody : List Char → Option (List Char × List Char)
  | [] => none
  | '"' :: rest => some ([], rest)
  | '\\' :: 'u' :: h1 :: h2 :: h3 :: h4 :: rest =>
    match hexVal h1, hexVal h2, hexVal h3, hexVal h4 with
    | some a, some b, some c, some d =>
      match parseJsonStringBody rest with
      | some (s, r) => some (Char.ofNat (((a * 16 + b) * 16 + c) * 16 + d) :: s, r)
      | none => none
    | _, _, _, _ => none
  | '\\' :: e :: rest =>
    match (match e with
           | '"' => some '"'
           | '\\' => some '\\'
           | '/' => some '/'
           | 'b' => some (Char.ofNat 8)
           | 'f' => some (Char.ofNat 12)
           | 'n' => some '\n'
           | 'r' => some '\r'
           | 't' => some '\t'
           | _ => none) with
    | some c =>
      match parseJsonStringBody rest with
      | some (s, r) => some (c :: s, r)
      | none => none
    | none => none
  | c :: rest =>
    match parseJsonStringBody rest with
    | some (s, r) => some (c :: s, r)
    | none => none

/-- Remainder of a JSON array of strings after its first element: a possibly
empty sequence of `, "..."` items followed by `]`. The fuel only bounds the
number of elements; `jsonParseStringArray` supplies the input length, which is
always sufficient since every element consumes at least one character. -/
def parseJsonArrayRest (fuel : Nat) (cs : List Char) : Option (List String × List Char) :=
  match skipWs cs with
  | ']' :: rest => some ([], rest)
  | ',' :: rest =>
    match fuel with
    | 0 => none
    | fuel' + 1 =>
      match skipWs rest with
      | '"' :: rest2 =>
        match parseJsonStringBody rest2 with
        | some (s, rest3) =>
          match parseJsonArrayRest fuel' rest3 with
          | some (ss, rest4) => some (String.mk s :: ss, rest4)
          | none => none
        | none => none
      | _ => none
  | _ => none

/-- Models `json.loads` composed with the guard of line 104: `some l` exactly
when the input is a JSON document consisting of one array of string literals,
`none` when `json.loads` raises or yields anything else. -/
def jsonParseStringArray (s : String) : Option (List String) :=
  match skipWs s.data with
  | '[' :: rest =>
    match skipWs rest with
    | ']' :: rest2 => if (skipWs rest2).isEmpty then some [] else none
    | '"' :: rest2 =>
      match parseJsonStringBody rest2 with
      | some (s0, rest3) =>
        match parseJsonArrayRest s.length rest3 with
        | some (ss, rest4) => if (skipWs rest4).isEmpty then some (String.mk s0 :: ss) else none
        | none => none
      | none => none
    | _ => none
  | _ => none

/-- Errors raised during `Config.load` (see the module comment for the mapping
to the source's exceptions). -/
inductive ConfigError where
  | formatNotMapping
  | dictConversion
  | confluenceNotMapping
  | ignorePatternsFormat
  | validation (locs : List (List String))
deriving DecidableEq

/-- `Config._parse_ignore_patterns` (lines 98-109): a JSON array of strings if
the stripped value starts with `[`, else a comma-separated list; both forms
strip entries and drop entries that are empty after stripping. -/
def parse_ignore_patterns (value : String) : Except ConfigError (List String) :=
  let raw := pyStrip value
  if startsWithBracket raw then
    match jsonParseStringArray raw with
    | some parsed => Except.ok ((parsed.map pyStrip).filter (fun x => x != ""))
    | none => Except.error ConfigError.ignorePatternsFormat
  else
    Except.ok (((pySplitComma raw).map pyStrip).filter (fun p => p != ""))

/-- `ConfluenceConfig` (lines 12-16): `url`, `api_token`, `space_key` required
strings, `username` optional. -/
structure ConfluenceConfig where
  url : String
  api_token : String
  space_key : String
  username : Option String
deriving DecidableEq

/-- `SyncConfig` (lines 19-22): the validated settings record. `local_path` is
a `pathlib.Path`, modelled as its string; `ignore_patterns` a list of strings. -/
structure SyncConfig where
  confluence : ConfluenceConfig
  local_path : String
  ignore_patterns : List String
deriving DecidableEq

/-- The expression `out.get("confluence") or {}` of line 58. -/
def confluenceBase (out : List (String × Yaml)) : Yaml :=
  match alGet out "confluence" with
  | some v => if v.truthy then v else Yaml.map []
  | none => Yaml.map []

/-- One element of an iterable accepted by Python `dict(...)`: a two-element
sequence whose first component is a (string) key. -/
def pairOfYaml : Yaml → Option (String × Yaml)
  | Yaml.list [Yaml.str k, v] => some (k, v)
  | _ => none

/-- Python `dict(x)` on a YAML-derived value: a mapping is copied; a sequence
of key/value pairs is folded with `dict` update semantics (later duplicates
overwrite in place); everything else raises (`none`). -/
def dictOfYaml : Yaml → Option (List (String × Yaml))
  | Yaml.map kvs => some kvs
  | Yaml.list xs => xs.foldlM (fun acc x =>
      match pairOfYaml x with
      | some kv => some (alSet acc kv.1 kv.2)
      | none => none) []
  | _ => none

/-- One conditional update `if v is not None: c[k] = v` (lines 67-74). -/
def setOpt (c : List (String × Yaml)) (k : String) (v : Option String) : List (String × Yaml) :=
  match v with
  | some s => alSet c k (Yaml.str s)
  | none => c

/-- Lines 67-74: overlay the four `CONFLUENCE_*` environment values onto the
`confluence` dict, in source order. -/
def applyConfluenceEnv (u t sk un : Option String) (c : List (String × Yaml)) :
    List (String × Yaml) :=
  setOpt (setOpt (setOpt (setOpt c "url" u) "api_token" t) "space_key" sk) "username" un

/-- Lines 76-77: `if confluence: out["confluence"] = confluence`. -/
def setConfluenceIn (out : List (String × Yaml)) (confluence : List (String × Yaml)) :
    List (String × Yaml) :=
  if confluence.isEmpty then out else alSet out "confluence" (Yaml.map confluence)

/-- Lines 80-82: `LOCAL_PATH` overlay onto the top-level dict. -/
def setLocalPathIn (lp : Option String) (out : List (String × Yaml)) : List (String × Yaml) :=
  match lp with
  | some v => alSet out "local_path" (Yaml.str v)
  | none => out

/-- Lines 84-86: `IGNORE_PATTERNS` overlay onto the top-level dict (its parse
may raise). -/
def setIgnoreIn (ipr : Option String) (out : List (String × Yaml)) :
    Except ConfigError (List (String × Yaml)) :=
  match ipr with
  | none => Except.ok out
  | some raw =>
    match parse_ignore_patterns raw with
    | Except.ok pats => Except.ok (alSet out "ignore_patterns" (Yaml.list (pats.map Yaml.str)))
    | Except.error e => Except.error e

/-- `Config._overlay_env` (lines 53-88) with the six `_get_env` reads (lines
62-65, 80, 84) passed in as arguments. Reading the environment is pure, so
hoisting the reads above the (dead) line 59-60 check preserves behavior. -/
def overlayCore (u t sk un lp ipr : Option String) (config_data : List (String × Yaml)) :
    Except ConfigError (List (String × Yaml)) :=
  match dictOfYaml (confluenceBase config_data) with
  | none => Except.error ConfigError.dictConversion
  | some c0 =>
    if (Yaml.map c0).truthy && !(Yaml.map c0).isMap then
      Except.error ConfigError.confluenceNotMapping
    else
      setIgnoreIn ipr (setLocalPathIn lp (setConfluenceIn config_data (applyConfluenceEnv u t sk un c0)))

/-- The six environment variables recognized by `_overlay_env`. -/
def recognizedEnvNames : List String :=
  ["CONFLUENCE_URL", "CONFLUENCE_API_TOKEN", "CONFLUENCE_SPACE_KEY",
   "CONFLUENCE_USERNAME", "LOCAL_PATH", "IGNORE_PATTERNS"]

/-- `Config._overlay_env` reading the ambient environment. -/
def overlayEnv (env : Env) (config_data : List (String × Yaml)) :
    Except ConfigError (List (String × Yaml)) :=
  overlayCore (getEnvTrimmed env "CONFLUENCE_URL") (getEnvTrimmed env "CONFLUENCE_API_TOKEN")
    (getEnvTrimmed env "CONFLUENCE_SPACE_KEY") (getEnvTrimmed env "CONFLUENCE_USERNAME")
    (getEnvTrimmed env "LOCAL_PATH") (getEnvTrimmed env "IGNORE_PATTERNS") config_data

/-- pydantic validation of one required `str` field: present with a string
value, of any length. -/
def reqStr (kvs : List (String × Yaml)) (k : String) : Option String :=
  match alGet kvs k with
  | some (Yaml.str s) => some s
  | _ => none

/-- pydantic validation of one `Optional[str]` field: absent or `None` give
the default `None`; a string gives that string; anything else fails. -/
def optStrField (kvs : List (String × Yaml)) (k : String) : Option (Option String) :=
  match alGet kvs k with
  | none => some none
  | some Yaml.null => some none
  | some (Yaml.str s) => some (some s)
  | some _ => none

/-- pydantic error locations for a failing `ConfluenceConfig`, in field
declaration order. -/
def confluenceErrLocs (kvs : List (String × Yaml)) : List (List String) :=
  (if (reqStr kvs "url").isNone then [["url"]] else []) ++
  (if (reqStr kvs "api_token").isNone then [["api_token"]] else []) ++
  (if (reqStr kvs "space_key").isNone then [["space_key"]] else []) ++
  (if (optStrField kvs "username").isNone then [["username"]] else [])

/-- pydantic validation of `ConfluenceConfig` from a mapping. -/
def validateConfluence (kvs : List (String × Yaml)) :
    Except (List (List String)) ConfluenceConfig :=
  match reqStr kvs "url", reqStr kvs "api_token", reqStr kvs "space_key",
        optStrField kvs "username" with
  | some u, some t, some sk, some un => Except.ok ⟨u, t, sk, un⟩
  | _, _, _, _ => Except.error (confluenceErrLocs kvs)

/-- pydantic validation of the `local_path : Path` field (default `Path("docs")`). -/
def validateLocalPath (kvs : List (String × Yaml)) : Option String :=
  match alGet kvs "local_path" with
  | none => some "docs"
  | some (Yaml.str s) => some s
  | some _ => none

/-- A YAML list accepted by a `list[str]` field: every element a string. -/
def strListOfYaml : List Yaml → Option (List String)
  | [] => some []
  | Yaml.str s :: ys =>
    match strListOfYaml ys with
    | some ss => some (s :: ss)
    | none => none
  | _ :: _ => none

/-- pydantic validation of the `ignore_patterns : list[str]` field (default `[]`). -/
def validateIgnorePatterns (kvs : List (String × Yaml)) : Option (List String) :=
  match alGet kvs "ignore_patterns" with
  | none => some []
  | some (Yaml.list xs) => strListOfYaml xs
  | some _ => none

/-- pydantic validation of the required nested `confluence` field. -/
def confluencePart (kvs : List (String × Yaml)) : Option ConfluenceConfig :=
  match alGet kvs "confluence" with
  | some (Yaml.map ckvs) =>
    match validateConfluence ckvs with
    | Except.ok c => some c
    | Except.error _ => none
  | _ => none

/-- pydantic error locations contributed by the `confluence` field: nested
`ConfluenceConfig` errors prefixed with their parent location, a missing or
non-mapping value reported at the field itself. -/
def confluenceErrComponent (kvs : List (String × Yaml)) : List (List String) :=
  match alGet kvs "confluence" with
  | some (Yaml.map ckvs) =>
    (match validateConfluence ckvs with
     | Except.ok _ => []
     | Except.error locs => locs.map (fun loc => "confluence" :: loc))
  | _ => [["confluence"]]

/-- pydantic error locations for a failing `SyncConfig`. -/
def syncErrLocs (kvs : List (String × Yaml)) : List (List String) :=
  confluenceErrComponent kvs ++
  (if (validateLocalPath kvs).isNone then [["local_path"]] else []) ++
  (if (validateIgnorePatterns kvs).isNone then [["ignore_patterns"]] else [])

/-- `SyncConfig(**config_data)` (line 50): pydantic construction-validation. -/
def validateSyncConfig (kvs : List (String × Yaml)) : Except ConfigError SyncConfig :=
  match confluencePart kvs, validateLocalPath kvs, validateIgnorePatterns kvs with
  | some c, some lp, some ip => Except.ok ⟨c, lp, ip⟩
  | _, _, _ => Except.error (ConfigError.validation (syncErrLocs kvs))

/-- The state of the config file at the loader's path. -/
inductive FileState where
  | absent
  | present (loaded : Yaml)

/-- Lines 39-47: read the file into `config_data`, starting from `{}`; a
falsy parse (empty file, `None`, `[]`, `""`, `0`, `false`, `{}`) leaves `{}`;
a truthy non-mapping raises the line 46 `ValueError`. -/
def parseFileData (fs : FileState) : Except ConfigError (List (String × Yaml)) :=
  match fs with
  | FileState.absent => Except.ok []
  | FileState.present loaded =>
    if loaded.truthy then
      match loaded with
      | Yaml.map kvs => Except.ok kvs
      | _ => Except.error ConfigError.formatNotMapping
    else Except.ok []

/-- The value computed (or exception raised) by `Config.load` (lines 30-51),
as a function of the file state and environment. -/
def loadResult (fs : FileState) (env : Env) : Except ConfigError SyncConfig :=
  match parseFileData fs with
  | Except.error e => Except.error e
  | Except.ok config_data =>
    match overlayEnv env config_data with
    | Except.error e => Except.error e
    | Except.ok merged => validateSyncConfig merged

/-- The loader's mutable state: `self._config` (line 28). -/
structure ConfigState where
  cached : Option SyncConfig
deriving DecidableEq

/-- `Config.load` as a state transformer on the loader: the assignment
`self._config = SyncConfig(**config_data)` (line 50) runs only after the
construction succeeded; any exception of lines 41-50 propagates before it. -/
def load (fs : FileState) (env : Env) (st : ConfigState) :
    ConfigState × Except ConfigError SyncConfig :=
  match loadResult fs env with
  | Except.ok cfg => (⟨some cfg⟩, Except.ok cfg)
  | Except.error e => (st, Except.error e)

/-- The fixed placeholder document of `save_template` (lines 111-126), as the
YAML value `yaml.safe_load` recovers from the dumped file. -/
def templateYaml : Yaml :=
  Yaml.map [("confluence", Yaml.map [("url", Yaml.str "https://your-domain.atlassian.net"),
                                     ("api_token", Yaml.str "your-api-token"),
                                     ("space_key", Yaml.str "YOUR_SPACE_KEY")]),
            ("local_path", Yaml.str "docs"),
            ("ignore_patterns", Yaml.list [Yaml.str "*.tmp", Yaml.str ".git/*"])]

/-- `Config.save_template` (lines 111-126): overwrite the config path with the
fixed template. -/
def save_template (_fs : FileState) : FileState :=
  FileState.present templateYaml

/-- Recognizer for the (dead) line 60 exception among `_overlay_env` outcomes. -/
def isConfluenceNotMappingError : Except ConfigError (List (String × Yaml)) → Bool
  | Except.error ConfigError.confluenceNotMapping => true
  | _ => false

/- ### Association-list lemmas -/

theorem alGet_alSet_self (l : List (String × Yaml)) (k : String) (v : Yaml) :
    alGet (alSet l k v) k = some v := by
  induction l with
  | nil => simp [alSet, alGet]
  | cons hd tl ih =>
    obtain ⟨k0, v0⟩ := hd
    by_cases h : k0 = k
    · simp [alSet, h, alGet]
    · simp [alSet, h, alGet, ih]

theorem alGet_alSet_ne (l : List (String × Yaml)) (kset klook : String) (v : Yaml)
    (h : kset ≠ klook) : alGet (alSet l kset v) klook = alGet l klook := by
  induction l with
  | nil => simp [alSet, alGet, h]
  | cons hd tl ih =>
    obtain ⟨k0, v0⟩ := hd
    by_cases h0 : k0 = kset
    · subst h0; simp [alSet, alGet, h]
    · simp [alSet, h0, alGet, ih]

theorem alSet_isEmpty (l : List (String × Yaml)) (k : String) (v : Yaml) :
    (alSet l k v).isEmpty = false := by
  cases l with
  | nil => simp [alSet]
  | cons hd tl =>
    obtain ⟨k0, v0⟩ := hd
    by_cases h : k0 = k <;> simp [alSet, h]

theorem alGet_isEmpty_false (kvs : List (String × Yaml)) (k : String) (y : Yaml)
    (h : alGet kvs k = some y) : kvs.isEmpty = false := by
  cases kvs with
  | nil => simp [alGet] at h
  | cons hd tl => rfl

/- ### `setOpt` and `applyConfluenceEnv` lemmas -/

theorem setOpt_none (c : List (String × Yaml)) (k : String) : setOpt c k none = c := rfl

theorem alGet_setOpt_ne (c : List (String × Yaml)) (kset klook : String) (v : Option String)
    (h : kset ≠ klook) : alGet (setOpt c kset v) klook = alGet c klook := by
  cases v with
  | none => rfl
  | some s => exact alGet_alSet_ne c kset klook (Yaml.str s) h

theorem alGet_setOpt_some (c : List (String × Yaml)) (k : String) (s : String) :
    alGet (setOpt c k (some s)) k = some (Yaml.str s) :=
  alGet_alSet_self c k (Yaml.str s)

theorem setOpt_isEmpty (c : List (String × Yaml)) (k : String) (v : Option String) :
    (setOpt c k v).isEmpty = (v.isNone && c.isEmpty) := by
  cases v with
  | none => simp [setOpt]
  | some s => simp [setOpt, alSet_isEmpty]

theorem applyConfluenceEnv_isEmpty (u t sk un : Option String) (c : List (String × Yaml)) :
    (applyConfluenceEnv u t sk un c).isEmpty =
      (un.isNone && (sk.isNone && (t.isNone && (u.isNone && c.isEmpty)))) := by
  unfold applyConfluenceEnv
  rw [setOpt_isEmpty, setOpt_isEmpty, setOpt_isEmpty, setOpt_isEmpty]

theorem applyConfluenceEnv_url (u t sk un : Option String) (c : List (String × Yaml)) :
    alGet (applyConfluenceEnv u t sk un c) "url" =
      (match u with
       | some v => some (Yaml.str v)
       | none => alGet c "url") := by
  unfold applyConfluenceEnv
  rw [alGet_setOpt_ne _ "username" "url" un (by decide),
      alGet_setOpt_ne _ "space_key" "url" sk (by decide),
      alGet_setOpt_ne _ "api_token" "url" t (by decide)]
  cases u with
  | none => rfl
  | some v => exact alGet_setOpt_some c "url" v

theorem applyConfluenceEnv_api_token (u t sk un : Option String) (c : List (String × Yaml)) :
    alGet (applyConfluenceEnv u t sk un c) "api_token" =
      (match t with
       | some v => some (Yaml.str v)
       | none => alGet c "api_token") := by
  unfold applyConfluenceEnv
  rw [alGet_setOpt_ne _ "username" "api_token" un (by decide),
      alGet_setOpt_ne _ "space_key" "api_token" sk (by decide)]
  cases t with
  | none => exact alGet_setOpt_ne _ "url" "api_token" u (by decide)
  | some v => exact alGet_setOpt_some _ "api_token" v

theorem applyConfluenceEnv_space_key (u t sk un : Option String) (c : List (String × Yaml)) :
    alGet (applyConfluenceEnv u t sk un c) "space_key" =
      (match sk with
       | some v => some (Yaml.str v)
       | none => alGet c "space_key") := by
  unfold applyConfluenceEnv
  rw [alGet_setOpt_ne _ "username" "space_key" un (by decide)]
  cases sk with
  | none =>
    rw [setOpt_none]
    rw [alGet_setOpt_ne _ "api_token" "space_key" t (by decide),
        alGet_setOpt_ne _ "url" "space_key" u (by decide)]
  | some v => exact alGet_setOpt_some _ "space_key" v

theorem applyConfluenceEnv_username (u t sk un : Option String) (c : List (String × Yaml)) :
    alGet (applyConfluenceEnv u t sk un c) "username" =
      (match un with
       | some v => some (Yaml.str v)
       | none => alGet c "username") := by
  unfold applyConfluenceEnv
  cases un with
  | none =>
    rw [setOpt_none]
    rw [alGet_setOpt_ne _ "space_key" "username" sk (by decide),
        alGet_setOpt_ne _ "api_token" "username" t (by decide),
        alGet_setOpt_ne _ "url" "username" u (by decide)]
  | some v => exact alGet_setOpt_some _ "username" v

/- ### Overlay-step lemmas -/

theorem alGet_setConfluenceIn_self (out c : List (String × Yaml)) (h : c.isEmpty = false) :
    alGet (setConfluenceIn out c) "confluence" = some (Yaml.map c) := by
  unfold setConfluenceIn
  simp [h, alGet_alSet_self]

theorem alGet_setConfluenceIn_ne (out c : List (String × Yaml)) (k : String)
    (h : "confluence" ≠ k) : alGet (setConfluenceIn out c) k = alGet out k := by
  unfold setConfluenceIn
  by_cases hc : c.isEmpty <;> simp [hc, alGet_alSet_ne out "confluence" k _ h]

theorem alGet_setLocalPathIn_ne (lp : Option String) (out : List (String × Yaml)) (k : String)
    (h : "local_path" ≠ k) : alGet (setLocalPathIn lp out) k = alGet out k := by
  cases lp with
  | none => rfl
  | some v => exact alGet_alSet_ne out "local_path" k (Yaml.str v) h

theorem alGet_setLocalPathIn_some (v : String) (out : List (String × Yaml)) :
    alGet (setLocalPathIn (some v) out) "local_path" = some (Yaml.str v) :=
  alGet_alSet_self out "local_path" (Yaml.str v)

theorem setIgnoreIn_ok_ne (ipr : Option String) (out out' : List (String × Yaml)) (k : String)
    (h : setIgnoreIn ipr out = Except.ok out') (hk : "ignore_patterns" ≠ k) :
    alGet out' k = alGet out k := by
  cases ipr with
  | none =>
    simp only [setIgnoreIn] at h
    injection h with h'
    subst h'
    rfl
  | some raw =>
    simp only [setIgnoreIn] at h
    cases hp : parse_ignore_patterns raw with
    | ok pats =>
      rw [hp] at h
      injection h with h'
      subst h'
      exact alGet_alSet_ne out "ignore_patterns" k _ hk
    | error e => rw [hp] at h; simp at h

theorem setIgnoreIn_ok_some (raw : String) (out out' : List (String × Yaml))
    (h : setIgnoreIn (some raw) out = Except.ok out') :
    ∃ pats, parse_ignore_patterns raw = Except.ok pats ∧
      alGet out' "ignore_patterns" = some (Yaml.list (pats.map Yaml.str)) := by
  simp only [setIgnoreIn] at h
  cases hp : parse_ignore_patterns raw with
  | ok pats =>
    rw [hp] at h
    injection h with h'
    subst h'
    exact ⟨pats, rfl, alGet_alSet_self out "ignore_patterns" _⟩
  | error e => rw [hp] at h; simp at h

theorem parse_ignore_patterns_error (value : String) (e : ConfigError)
    (h : parse_ignore_patterns value = Except.error e) :
    e = ConfigError.ignorePatternsFormat := by
  unfold parse_ignore_patterns at h
  by_cases hb : startsWithBracket (pyStrip value)
  · rw [if_pos hb] at h
    cases hj : jsonParseStringArray (pyStrip value) with
    | some l => rw [hj] at h; simp at h
    | none => rw [hj] at h; injection h with h'; exact h'.symm
  · rw [if_neg hb] at h
    simp at h

/- ### `overlayCore` characterization -/

theorem overlayCore_eq (u t sk un lp ipr : Option String) (d c0 : List (String × Yaml))
    (hd : dictOfYaml (confluenceBase d) = some c0) :
    overlayCore u t sk un lp ipr d =
      setIgnoreIn ipr (setLocalPathIn lp (setConfluenceIn d (applyConfluenceEnv u t sk un c0))) := by
  unfold overlayCore
  rw [hd]
  simp [Yaml.isMap]

theorem overlayCore_never_confluenceNotMapping (u t sk un lp ipr : Option String)
    (d : List (String × Yaml)) :
    isConfluenceNotMappingError (overlayCore u t sk un lp ipr d) = false := by
  cases hd : dictOfYaml (confluenceBase d) with
  | none => unfold overlayCore; rw [hd]; rfl
  | some c0 =>
    rw [overlayCore_eq u t sk un lp ipr d c0 hd]
    cases ipr with
    | none => rfl
    | some raw =>
      simp only [setIgnoreIn]
      cases hp : parse_ignore_patterns raw with
      | ok pats => rfl
      | error e =>
        rw [parse_ignore_patterns_error raw e hp]
        rfl

theorem overlayCore_ok_url (t sk un lp ipr : Option String) (d out : List (String × Yaml))
    (v : String) (h : overlayCore (some v) t sk un lp ipr d = Except.ok out) :
    ∃ c, alGet out "confluence" = some (Yaml.map c) ∧ alGet c "url" = some (Yaml.str v) := by
  cases hd : dictOfYaml (confluenceBase d) with
  | none => unfold overlayCore at h; rw [hd] at h; simp at h
  | some c0 =>
    rw [overlayCore_eq (some v) t sk un lp ipr d c0 hd] at h
    refine ⟨applyConfluenceEnv (some v) t sk un c0, ?_, ?_⟩
    · rw [setIgnoreIn_ok_ne ipr _ out "confluence" h (by decide),
          alGet_setLocalPathIn_ne lp _ "confluence" (by decide),
          alGet_setConfluenceIn_self _ _ (by simp [applyConfluenceEnv_isEmpty])]
    · rw [applyConfluenceEnv_url]

theorem overlayCore_ok_api_token (u sk un lp ipr : Option String) (d out : List (String × Yaml))
    (v : String) (h : overlayCore u (some v) sk un lp ipr d = Except.ok out) :
    ∃ c, alGet out "confluence" = some (Yaml.map c) ∧ alGet c "api_token" = some (Yaml.str v) := by
  cases hd : dictOfYaml (confluenceBase d) with
  | none => unfold overlayCore at h; rw [hd] at h; simp at h
  | some c0 =>
    rw [overlayCore_eq u (some v) sk un lp ipr d c0 hd] at h
    refine ⟨applyConfluenceEnv u (some v) sk un c0, ?_, ?_⟩
    · rw [setIgnoreIn_ok_ne ipr _ out "confluence" h (by decide),
          alGet_setLocalPathIn_ne lp _ "confluence" (by decide),
          alGet_setConfluenceIn_self _ _ (by simp [applyConfluenceEnv_isEmpty])]
    · rw [applyConfluenceEnv_api_token]

theorem overlayCore_ok_space_key (u t un lp ipr : Option String) (d out : List (String × Yaml))
    (v : String) (h : overlayCore u t (some v) un lp ipr d = Except.ok out) :
    ∃ c, alGet out "confluence" = some (Yaml.map c) ∧ alGet c "space_key" = some (Yaml.str v) := by
  cases hd : dictOfYaml (confluenceBase d) with
  | none => unfold overlayCore at h; rw [hd] at h; simp at h
  | some c0 =>
    rw [overlayCore_eq u t (some v) un lp ipr d c0 hd] at h
    refine ⟨applyConfluenceEnv u t (some v) un c0, ?_, ?_⟩
    · rw [setIgnoreIn_ok_ne ipr _ out "confluence" h (by decide),
          alGet_setLocalPathIn_ne lp _ "confluence" (by decide),
          alGet_setConfluenceIn_self _ _ (by simp [applyConfluenceEnv_isEmpty])]
    · rw [applyConfluenceEnv_space_key]

theorem overlayCore_ok_username (u t sk lp ipr : Option String) (d out : List (String × Yaml))
    (v : String) (h : overlayCore u t sk (some v) lp ipr d = Except.ok out) :
    ∃ c, alGet out "confluence" = some (Yaml.map c) ∧ alGet c "username" = some (Yaml.str v) := by
  cases hd : dictOfYaml (confluenceBase d) with
  | none => unfold overlayCore at h; rw [hd] at h; simp at h
  | some c0 =>
    rw [overlayCore_eq u t sk (some v) lp ipr d c0 hd] at h
    refine ⟨applyConfluenceEnv u t sk (some v) c0, ?_, ?_⟩
    · rw [setIgnoreIn_ok_ne ipr _ out "confluence" h (by decide),
          alGet_setLocalPathIn_ne lp _ "confluence" (by decide),
          alGet_setConfluenceIn_self _ _ (by simp [applyConfluenceEnv_isEmpty])]
    · rw [applyConfluenceEnv_username]

theorem overlayCore_ok_local_path (u t sk un ipr : Option String) (d out : List (String × Yaml))
    (v : String) (h : overlayCore u t sk un (some v) ipr d = Except.ok out) :
    alGet out "local_path" = some (Yaml.str v) := by
  cases hd : dictOfYaml (confluenceBase d) with
  | none => unfold overlayCore at h; rw [hd] at h; simp at h
  | some c0 =>
    rw [overlayCore_eq u t sk un (some v) ipr d c0 hd] at h
    rw [setIgnoreIn_ok_ne ipr _ out "local_path" h (by decide),
        alGet_setLocalPathIn_some]

theorem overlayCore_ok_ignore (u t sk un lp : Option String) (d out : List (String × Yaml))
    (raw : String) (h : overlayCore u t sk un lp (some raw) d = Except.ok out) :
    ∃ pats, parse_ignore_patterns raw = Except.ok pats ∧
      alGet out "ignore_patterns" = some (Yaml.list (pats.map Yaml.str)) := by
  cases hd : dictOfYaml (confluenceBase d) with
  | none => unfold overlayCore at h; rw [hd] at h; simp at h
  | some c0 =>
    rw [overlayCore_eq u t sk un lp (some raw) d c0 hd] at h
    exact setIgnoreIn_ok_some raw _ out h

/- ### Validation lemmas -/

theorem strListOfYaml_map_str (l : List String) :
    strListOfYaml (l.map Yaml.str) = some l := by
  induction l with
  | nil => rfl
  | cons x xs ih => simp [strListOfYaml, ih]

theorem validateConfluence_ok_fields (ckvs : List (String × Yaml)) (c : ConfluenceConfig)
    (h : validateConfluence ckvs = Except.ok c) :
    reqStr ckvs "url" = some c.url ∧ reqStr ckvs "api_token" = some c.api_token ∧
    reqStr ckvs "space_key" = some c.space_key ∧
    optStrField ckvs "username" = some c.username := by
  unfold validateConfluence at h
  cases hu : reqStr ckvs "url" with
  | none => rw [hu] at h; simp at h
  | some u =>
    rw [hu] at h
    cases ht : reqStr ckvs "api_token" with
    | none => rw [ht] at h; simp at h
    | some t =>
      rw [ht] at h
      cases hs : reqStr ckvs "space_key" with
      | none => rw [hs] at h; simp at h
      | some sk =>
        rw [hs] at h
        cases hn : optStrField ckvs "username" with
        | none => rw [hn] at h; simp at h
        | some un =>
          rw [hn] at h
          injection h with h'
          subst h'
          exact ⟨rfl, rfl, rfl, rfl⟩

theorem validateConfluence_eq_error_of_token_missing (ckvs : List (String × Yaml))
    (ht : reqStr ckvs "api_token" = none) :
    validateConfluence ckvs = Except.error (confluenceErrLocs ckvs) := by
  unfold validateConfluence
  rw [ht]
  cases reqStr ckvs "url" <;> rfl

theorem api_token_mem_confluenceErrLocs (ckvs : List (String × Yaml))
    (ht : reqStr ckvs "api_token" = none) :
    ["api_token"] ∈ confluenceErrLocs ckvs := by
  unfold confluenceErrLocs
  rw [ht]
  simp

theorem validateSyncConfig_ok_parts (kvs : List (String × Yaml)) (cfg : SyncConfig)
    (h : validateSyncConfig kvs = Except.ok cfg) :
    confluencePart kvs = some cfg.confluence ∧
    validateLocalPath kvs = some cfg.local_path ∧
    validateIgnorePatterns kvs = some cfg.ignore_patterns := by
  unfold validateSyncConfig at h
  cases hc : confluencePart kvs with
  | none => rw [hc] at h; simp at h
  | some c =>
    rw [hc] at h
    cases hl : validateLocalPath kvs with
    | none => rw [hl] at h; simp at h
    | some lp =>
      rw [hl] at h
      cases hi : validateIgnorePatterns kvs with
      | none => rw [hi] at h; simp at h
      | some ip =>
        rw [hi] at h
        injection h with h'
        subst h'
        exact ⟨rfl, rfl, rfl⟩

theorem validateSyncConfig_error_locs (kvs : List (String × Yaml)) (locs : List (List String))
    (h : validateSyncConfig kvs = Except.error (ConfigError.validation locs)) :
    locs = syncErrLocs kvs := by
  unfold validateSyncConfig at h
  cases hc : confluencePart kvs with
  | none =>
    rw [hc] at h
    injection h with h'
    injection h' with h''
    exact h''.symm
  | some c =>
    rw [hc] at h
    cases hl : validateLocalPath kvs with
    | none =>
      rw [hl] at h
      injection h with h'
      injection h' with h''
      exact h''.symm
    | some lp =>
      rw [hl] at h
      cases hi : validateIgnorePatterns kvs with
      | none =>
        rw [hi] at h
        injection h with h'
        injection h' with h''
        exact h''.symm
      | some ip => rw [hi] at h; simp at h

theorem confluencePart_elim (kvs : List (String × Yaml)) (c : ConfluenceConfig)
    (h : confluencePart kvs = some c) :
    ∃ ckvs, alGet kvs "confluence" = some (Yaml.map ckvs) ∧
      validateConfluence ckvs = Except.ok c := by
  unfold confluencePart at h
  cases ha : alGet kvs "confluence" with
  | none => rw [ha] at h; simp at h
  | some y =>
    rw [ha] at h
    cases y with
    | map ckvs =>
      have h2 : (match validateConfluence ckvs with
                 | Except.ok c => some c
                 | Except.error _ => none) = some c := h
      cases hv : validateConfluence ckvs with
      | ok c' =>
        rw [hv] at h2
        injection h2 with h'
        subst h'
        exact ⟨ckvs, rfl, hv⟩
      | error locs => rw [hv] at h2; simp at h2
    | null => simp at h
    | bool b => simp at h
    | int n => simp at h
    | str s => simp at h
    | list xs => simp at h

theorem confluenceErrComponent_eq (kvs ckvs : List (String × Yaml))
    (hc : alGet kvs "confluence" = some (Yaml.map ckvs)) :
    confluenceErrComponent kvs =
      (match validateConfluence ckvs with
       | Except.ok _ => []
       | Except.error locs => locs.map (fun loc => "confluence" :: loc)) := by
  unfold confluenceErrComponent
  rw [hc]

theorem syncErrLocs_mem_api_token (kvs ckvs : List (String × Yaml))
    (hc : alGet kvs "confluence" = some (Yaml.map ckvs))
    (ht : reqStr ckvs "api_token" = none) :
    ["confluence", "api_token"] ∈ syncErrLocs kvs := by
  unfold syncErrLocs
  rw [confluenceErrComponent_eq kvs ckvs hc,
      validateConfluence_eq_error_of_token_missing ckvs ht]
  have hmem : ["api_token"] ∈ confluenceErrLocs ckvs := api_token_mem_confluenceErrLocs ckvs ht
  refine List.mem_append.mpr (Or.inl (List.mem_append.mpr (Or.inl ?_)))
  exact List.mem_map.mpr ⟨["api_token"], hmem, rfl⟩

/- ### Environment lemmas -/

theorem getenv_eraseAll_self (env : Env) (name : String) :
    getenv (eraseAll name env) name = none := by
  induction env with
  | nil => rfl
  | cons hd tl ih =>
    obtain ⟨n, v⟩ := hd
    by_cases h : n = name
    · simp [eraseAll, h, ih]
    · simp [eraseAll, h, getenv, ih]

theorem getenv_eraseAll_ne (env : Env) (name m : String) (h : m ≠ name) :
    getenv (eraseAll name env) m = getenv env m := by
  induction env with
  | nil => rfl
  | cons hd tl ih =>
    obtain ⟨n, v⟩ := hd
    by_cases hn : n = name
    · subst hn
      simp [eraseAll, getenv, Ne.symm h, ih]
    · simp [eraseAll, hn, getenv, ih]

theorem getEnvTrimmed_eraseAll_ne (env : Env) (name m : String) (h : m ≠ name) :
    getEnvTrimmed (eraseAll name env) m = getEnvTrimmed env m := by
  unfold getEnvTrimmed
  rw [getenv_eraseAll_ne env name m h]

theorem getEnvTrimmed_eraseAll_self (env : Env) (name : String) :
    getEnvTrimmed (eraseAll name env) name = none := by
  unfold getEnvTrimmed
  rw [getenv_eraseAll_self]

theorem getEnvTrimmed_blank (env : Env) (name s : String) (hg : getenv env name = some s)
    (hb : pyStrip s = "") : getEnvTrimmed env name = none := by
  unfold getEnvTrimmed
  rw [hg]
  simp [hb]

theorem getEnvTrimmed_nonblank (env : Env) (name s : String) (hg : getenv env name = some s)
    (hb : pyStrip s ≠ "") : getEnvTrimmed env name = some (pyStrip s) := by
  unfold getEnvTrimmed
  rw [hg]
  simp [hb]

/- ### `load` decomposition -/

theorem loadResult_ok_elim (fs : FileState) (env : Env) (cfg : SyncConfig)
    (h : loadResult fs env = Except.ok cfg) :
    ∃ d merged, parseFileData fs = Except.ok d ∧ overlayEnv env d = Except.ok merged ∧
      validateSyncConfig merged = Except.ok cfg := by
  unfold loadResult at h
  cases hp : parseFileData fs with
  | error e => rw [hp] at h; simp at h
  | ok d =>
    rw [hp] at h
    have h2 : (match overlayEnv env d with
               | Except.error e => Except.error e
               | Except.ok merged => validateSyncConfig merged) = Except.ok cfg := h
    cases ho : overlayEnv env d with
    | error e => rw [ho] at h2; simp at h2
    | ok merged => rw [ho] at h2; exact ⟨d, merged, rfl, ho, h2⟩

theorem loadResult_env_congr (fs : FileState) (env env' : Env)
    (h : ∀ n, n ∈ recognizedEnvNames → getEnvTrimmed env n = getEnvTrimmed env' n) :
    loadResult fs env = loadResult fs env' := by
  have h1 := h "CONFLUENCE_URL" (by decide)
  have h2 := h "CONFLUENCE_API_TOKEN" (by decide)
  have h3 := h "CONFLUENCE_SPACE_KEY" (by decide)
  have h4 := h "CONFLUENCE_USERNAME" (by decide)
  have h5 := h "LOCAL_PATH" (by decide)
  have h6 := h "IGNORE_PATTERNS" (by decide)
  unfold loadResult overlayEnv
  rw [h1, h2, h3, h4, h5, h6]

theorem loadResult_ok_env_fields (fs : FileState) (env : Env) (cfg : SyncConfig)
    (h : loadResult fs env = Except.ok cfg) :
    (∀ v, getEnvTrimmed env "CONFLUENCE_URL" = some v → cfg.confluence.url = v) ∧
    (∀ v, getEnvTrimmed env "CONFLUENCE_API_TOKEN" = some v → cfg.confluence.api_token = v) ∧
    (∀ v, getEnvTrimmed env "CONFLUENCE_SPACE_KEY" = some v → cfg.confluence.space_key = v) ∧
    (∀ v, getEnvTrimmed env "CONFLUENCE_USERNAME" = some v → cfg.confluence.username = some v) ∧
    (∀ v, getEnvTrimmed env "LOCAL_PATH" = some v → cfg.local_path = v) ∧
    (∀ v, getEnvTrimmed env "IGNORE_PATTERNS" = some v →
      parse_ignore_patterns v = Except.ok cfg.ignore_patterns) := by
  obtain ⟨d, merged, hp, ho, hv⟩ := loadResult_ok_elim fs env cfg h
  obtain ⟨hcp, hlp, hip⟩ := validateSyncConfig_ok_parts merged cfg hv
  unfold overlayEnv at ho
  refine ⟨?_, ?_, ?_, ?_, ?_, ?_⟩
  · intro v hval
    rw [hval] at ho
    obtain ⟨c, hcget, hfield⟩ := overlayCore_ok_url _ _ _ _ _ d merged v ho
    obtain ⟨ckvs, hck, hvc⟩ := confluencePart_elim merged cfg.confluence hcp
    rw [hck] at hcget
    injection hcget with h1
    injection h1 with h2
    subst h2
    obtain ⟨hfu, _, _, _⟩ := validateConfluence_ok_fields _ _ hvc
    have hr : reqStr ckvs "url" = some v := by unfold reqStr; rw [hfield]
    exact Option.some_inj.mp (hfu.symm.trans hr)
  · intro v hval
    rw [hval] at ho
    obtain ⟨c, hcget, hfield⟩ := overlayCore_ok_api_token _ _ _ _ _ d merged v ho
    obtain ⟨ckvs, hck, hvc⟩ := confluencePart_elim merged cfg.confluence hcp
    rw [hck] at hcget
    injection hcget with h1
    injection h1 with h2
    subst h2
    obtain ⟨_, hft, _, _⟩ := validateConfluence_ok_fields _ _ hvc
    have hr : reqStr ckvs "api_token" = some v := by unfold reqStr; rw [hfield]
    exact Option.some_inj.mp (hft.symm.trans hr)
  · intro v hval
    rw [hval] at ho
    obtain ⟨c, hcget, hfield⟩ := overlayCore_ok_space_key _ _ _ _ _ d merged v ho
    obtain ⟨ckvs, hck, hvc⟩ := confluencePart_elim merged cfg.confluence hcp
    rw [hck] at hcget
    injection hcget with h1
    injection h1 with h2
    subst h2
    obtain ⟨_, _, hfs, _⟩ := validateConfluence_ok_fields _ _ hvc
    have hr : reqStr ckvs "space_key" = some v := by unfold reqStr; rw [hfield]
    exact Option.some_inj.mp (hfs.symm.trans hr)
  · intro v hval
    rw [hval] at ho
    obtain ⟨c, hcget, hfield⟩ := overlayCore_ok_username _ _ _ _ _ d merged v ho
    obtain ⟨ckvs, hck, hvc⟩ := confluencePart_elim merged cfg.confluence hcp
    rw [hck] at hcget
    injection hcget with h1
    injection h1 with h2
    subst h2
    obtain ⟨_, _, _, hfn⟩ := validateConfluence_ok_fields _ _ hvc
    have hr : optStrField ckvs "username" = some (some v) := by
      unfold optStrField; rw [hfield]
    exact Option.some_inj.mp (hfn.symm.trans hr)
  · intro v hval
    rw [hval] at ho
    have hfield := overlayCore_ok_local_path _ _ _ _ _ d merged v ho
    have hr : validateLocalPath merged = some v := by unfold validateLocalPath; rw [hfield]
    exact Option.some_inj.mp (hlp.symm.trans hr)
  · intro v hval
    rw [hval] at ho
    obtain ⟨pats, hparse, hfield⟩ := overlayCore_ok_ignore _ _ _ _ _ d merged v ho
    have hr : validateIgnorePatterns merged = some pats := by
      unfold validateIgnorePatterns
      rw [hfield]
      exact strListOfYaml_map_str pats
    have heq : cfg.ignore_patterns = pats := Option.some_inj.mp (hip.symm.trans hr)
    rw [hparse, heq]

/- ### Support lemmas for the missing-api_token claim -/

theorem parseFileData_map (kvs : List (String × Yaml)) (h : kvs.isEmpty = false) :
    parseFileData (FileState.present (Yaml.map kvs)) = Except.ok kvs := by
  unfold parseFileData
  simp [Yaml.truthy, h]

theorem overlayCore_error_cases (u t sk un lp ipr : Option String)
    (d : List (String × Yaml)) (e : ConfigError)
    (h : overlayCore u t sk un lp ipr d = Except.error e) :
    e = ConfigError.dictConversion ∨ e = ConfigError.ignorePatternsFormat := by
  cases hd : dictOfYaml (confluenceBase d) with
  | none =>
    unfold overlayCore at h
    rw [hd] at h
    injection h with h'
    exact Or.inl h'.symm
  | some c0 =>
    rw [overlayCore_eq u t sk un lp ipr d c0 hd] at h
    cases ipr with
    | none => simp [setIgnoreIn] at h
    | some raw =>
      simp only [setIgnoreIn] at h
      cases hpe : parse_ignore_patterns raw with
      | ok pats => rw [hpe] at h; simp at h
      | error e' =>
        rw [hpe] at h
        injection h with h'
        exact Or.inr (h'.symm.trans (parse_ignore_patterns_error raw e' hpe))

theorem overlayCore_ok_confluence_token_none (u sk un lp ipr : Option String)
    (kvs ckvs merged : List (String × Yaml))
    (hconf : alGet kvs "confluence" = some (Yaml.map ckvs))
    (hfile : alGet ckvs "api_token" = none)
    (h : overlayCore u none sk un lp ipr kvs = Except.ok merged) :
    ∃ ckvs', alGet merged "confluence" = some (Yaml.map ckvs') ∧
      alGet ckvs' "api_token" = none := by
  have hc0 : dictOfYaml (confluenceBase kvs) =
      some (if ckvs.isEmpty then [] else ckvs) := by
    unfold confluenceBase
    rw [hconf]
    by_cases hce : ckvs.isEmpty <;> simp [Yaml.truthy, hce, dictOfYaml]
  rw [overlayCore_eq u none sk un lp ipr kvs _ hc0] at h
  have hc0tok : alGet (if ckvs.isEmpty then [] else ckvs) "api_token" = none := by
    by_cases hce : ckvs.isEmpty <;> simp [hce, alGet, hfile]
  have hc1tok : alGet (applyConfluenceEnv u none sk un (if ckvs.isEmpty then [] else ckvs))
      "api_token" = none := by
    rw [applyConfluenceEnv_api_token]
    exact hc0tok
  by_cases hemp : (applyConfluenceEnv u none sk un (if ckvs.isEmpty then [] else ckvs)).isEmpty
  · refine ⟨ckvs, ?_, hfile⟩
    rw [setIgnoreIn_ok_ne ipr _ merged "confluence" h (by decide),
        alGet_setLocalPathIn_ne lp _ "confluence" (by decide)]
    unfold setConfluenceIn
    rw [if_pos hemp]
    exact hconf
  · refine ⟨_, ?_, hc1tok⟩
    rw [setIgnoreIn_ok_ne ipr _ merged "confluence" h (by decide),
        alGet_setLocalPathIn_ne lp _ "confluence" (by decide),
        alGet_setConfluenceIn_self _ _ (by simpa using hemp)]

/- ### Claims -/

/-- Claim C1, counterexample: `save_template()` followed by `load()` on the
same path with no environment variables does NOT fail with a validation
error — the placeholder values are non-empty strings, pydantic accepts them,
and `load()` returns the template's contents. -/
theorem save_template_then_load_returns_template :
    loadResult (save_template FileState.absent) [] =
      Except.ok ⟨⟨"https://your-domain.atlassian.net", "your-api-token", "YOUR_SPACE_KEY",
                  none⟩, "docs", ["*.tmp", ".git/*"]⟩ := rfl

/-- Claim C1, amended: after `save_template()` writes the fixed placeholder
document to the config path, a subsequent `load()` with no relevant
environment variables succeeds, returning a settings object whose values
match the fixed template exactly. -/
theorem save_template_then_load_ok (fs : FileState) :
    loadResult (save_template fs) [] =
      Except.ok ⟨⟨"https://your-domain.atlassian.net", "your-api-token", "YOUR_SPACE_KEY",
                  none⟩, "docs", ["*.tmp", ".git/*"]⟩ := rfl

/-- Claim C2, counterexample: a config file supplying the empty string for all
three required fields loads successfully — pydantic `str` fields accept `""`,
so `load()` does not fail on empty required fields. -/
theorem load_accepts_empty_required_fields :
    loadResult (FileState.present (Yaml.map
      [("confluence", Yaml.map [("url", Yaml.str ""), ("api_token", Yaml.str ""),
                                ("space_key", Yaml.str "")])])) [] =
      Except.ok ⟨⟨"", "", "", none⟩, "docs", []⟩ := rfl

/-- Claim C2, amended: `load()` succeeds whenever the three required fields
are present as strings after the merge, for every string value including the
empty string; validation checks presence and type, not non-emptiness. -/
theorem load_ok_of_required_present (s1 s2 s3 : String) :
    loadResult (FileState.present (Yaml.map
      [("confluence", Yaml.map [("url", Yaml.str s1), ("api_token", Yaml.str s2),
                                ("space_key", Yaml.str s3)])])) [] =
      Except.ok ⟨⟨s1, s2, s3, none⟩, "docs", []⟩ := rfl

/-- Claim C3, counterexample: a config file whose top-level YAML value is the
empty list does NOT cause the format error — `if loaded:` treats the falsy
`[]` like an absent config, and `load()` instead fails validation on the
missing `confluence` field. -/
theorem empty_list_file_not_format_error :
    loadResult (FileState.present (Yaml.list [])) [] =
      Except.error (ConfigError.validation [["confluence"]]) := rfl

/-- Claim C3, amended: an existing config file whose content parses to a
truthy non-mapping YAML value (a non-empty list, non-empty string, non-zero
number, or `true`) makes `load()` fail with the format error, for every
environment; falsy non-mapping values (`[]`, `""`, `0`, `false`, `null`) are
instead treated as an empty config. -/
theorem truthy_non_mapping_format_error (y : Yaml) (env : Env)
    (ht : y.truthy = true) (hm : y.isMap = false) :
    loadResult (FileState.present y) env = Except.error ConfigError.formatNotMapping := by
  have hp : parseFileData (FileState.present y) = Except.error ConfigError.formatNotMapping := by
    have hstep : parseFileData (FileState.present y) =
        (if y.truthy = true then
          (match y with
           | Yaml.map kvs => Except.ok kvs
           | _ => Except.error ConfigError.formatNotMapping)
         else Except.ok []) := rfl
    rw [hstep, ht]
    cases y with
    | map kvs => exact absurd hm (by simp [Yaml.isMap])
    | null => rfl
    | bool b => rfl
    | int n => rfl
    | str s => rfl
    | list xs => rfl
  unfold loadResult
  rw [hp]

/-- Witness for the amended C3 theorem: the one-element list file `["a"]`. -/
theorem truthy_non_mapping_format_error_witness :
    loadResult (FileState.present (Yaml.list [Yaml.str "a"])) [] =
      Except.error ConfigError.formatNotMapping :=
  truthy_non_mapping_format_error (Yaml.list [Yaml.str "a"]) [] rfl rfl

/-- Claim C4: whenever `load()` returns a settings object and one of the six
recognized environment variables is set to a value that is non-empty after
trimming, the returned object carries the environment-derived value for the
corresponding field — the trimmed string for the five string fields, the
parse of the value for `IGNORE_PATTERNS` — and not the file value. -/
theorem env_overrides_file_values (fs : FileState) (env : Env) (cfg : SyncConfig)
    (h : loadResult fs env = Except.ok cfg) :
    (∀ v, getEnvTrimmed env "CONFLUENCE_URL" = some v → cfg.confluence.url = v) ∧
    (∀ v, getEnvTrimmed env "CONFLUENCE_API_TOKEN" = some v → cfg.confluence.api_token = v) ∧
    (∀ v, getEnvTrimmed env "CONFLUENCE_SPACE_KEY" = some v → cfg.confluence.space_key = v) ∧
    (∀ v, getEnvTrimmed env "CONFLUENCE_USERNAME" = some v → cfg.confluence.username = some v) ∧
    (∀ v, getEnvTrimmed env "LOCAL_PATH" = some v → cfg.local_path = v) ∧
    (∀ v, getEnvTrimmed env "IGNORE_PATTERNS" = some v →
      parse_ignore_patterns v = Except.ok cfg.ignore_patterns) :=
  loadResult_ok_env_fields fs env cfg h

/-- Witness for C4: file `url: a` with env `CONFLUENCE_URL=b` loads with
`url = "b"`. -/
theorem env_overrides_file_values_witness :
    loadResult (FileState.present (Yaml.map
      [("confluence", Yaml.map [("url", Yaml.str "a"), ("api_token", Yaml.str "t"),
                                ("space_key", Yaml.str "s")])]))
      [("CONFLUENCE_URL", "b")] =
      Except.ok ⟨⟨"b", "t", "s", none⟩, "docs", []⟩ ∧
    (⟨⟨"b", "t", "s", none⟩, "docs", []⟩ : SyncConfig).confluence.url = "b" :=
  ⟨rfl,
   (env_overrides_file_values
      (FileState.present (Yaml.map
        [("confluence", Yaml.map [("url", Yaml.str "a"), ("api_token", Yaml.str "t"),
                                  ("space_key", Yaml.str "s")])]))
      [("CONFLUENCE_URL", "b")]
      ⟨⟨"b", "t", "s", none⟩, "docs", []⟩ rfl).1 "b" rfl⟩

/-- Claim C5: an environment variable among the six recognized names whose
value is empty or whitespace-only behaves exactly as if unset — `load()`
computes the same result on the original environment and on the environment
with that variable removed, leaving file values and defaults untouched. -/
theorem blank_env_var_behaves_as_unset (fs : FileState) (env : Env) (name s : String)
    (hmem : name ∈ recognizedEnvNames) (hg : getenv env name = some s)
    (hb : pyStrip s = "") :
    loadResult fs env = loadResult fs (eraseAll name env) := by
  apply loadResult_env_congr
  intro n hn
  by_cases hnn : n = name
  · subst hnn
    rw [getEnvTrimmed_blank env n s hg hb, getEnvTrimmed_eraseAll_self]
  · rw [getEnvTrimmed_eraseAll_ne env name n hnn]

/-- Witness for C5: `CONFLUENCE_URL` set to whitespace on an absent file. -/
theorem blank_env_var_behaves_as_unset_witness :
    loadResult FileState.absent [("CONFLUENCE_URL", "  ")] =
      loadResult FileState.absent (eraseAll "CONFLUENCE_URL" [("CONFLUENCE_URL", "  ")]) :=
  blank_env_var_behaves_as_unset FileState.absent [("CONFLUENCE_URL", "  ")]
    "CONFLUENCE_URL" "  " (by decide) rfl (by decide)

/-- Claim C6: `_parse_ignore_patterns` treats input starting with `[` (after
stripping) as a JSON array of strings and any other input as a
comma-separated list; in both forms every entry is stripped and entries empty
after stripping are dropped; in particular `"*.tmp,*.log"` and
`"[\"*.tmp\", \"*.log\"]"` both yield `["*.tmp", "*.log"]`. -/
theorem ignore_patterns_parsing_spec (raw : String) :
    (startsWithBracket (pyStrip raw) = false →
      parse_ignore_patterns raw =
        Except.ok (((pySplitComma (pyStrip raw)).map pyStrip).filter (fun p => p != ""))) ∧
    (∀ l, startsWithBracket (pyStrip raw) = true →
      jsonParseStringArray (pyStrip raw) = some l →
      parse_ignore_patterns raw = Except.ok ((l.map pyStrip).filter (fun x => x != ""))) ∧
    parse_ignore_patterns "*.tmp,*.log" = Except.ok ["*.tmp", "*.log"] ∧
    parse_ignore_patterns "[\"*.tmp\", \"*.log\"]" = Except.ok ["*.tmp", "*.log"] := by
  refine ⟨?_, ?_, rfl, rfl⟩
  · intro hb
    simp [parse_ignore_patterns, hb]
  · intro l hb hj
    simp [parse_ignore_patterns, hb, hj]

/-- Witness for C6: both parsing branches exercised at concrete inputs. -/
theorem ignore_patterns_parsing_spec_witness :
    parse_ignore_patterns "*.tmp,*.log" =
      Except.ok (((pySplitComma (pyStrip "*.tmp,*.log")).map pyStrip).filter
        (fun p => p != "")) ∧
    parse_ignore_patterns "[\"*.tmp\", \"*.log\"]" =
      Except.ok ((["*.tmp", "*.log"].map pyStrip).filter (fun x => x != "")) :=
  ⟨(ignore_patterns_parsing_spec "*.tmp,*.log").1 rfl,
   (ignore_patterns_parsing_spec "[\"*.tmp\", \"*.log\"]").2.1 ["*.tmp", "*.log"] rfl rfl⟩

/-- Claim C7: when `api_token` is absent from the file's confluence mapping
and `CONFLUENCE_API_TOKEN` is unset or blank, `load()` can never succeed, and
whenever it fails with a validation error that error names the `api_token`
field (pydantic location `["confluence", "api_token"]`). -/
theorem missing_api_token_validation_error (env : Env) (kvs ckvs : List (String × Yaml))
    (hconf : alGet kvs "confluence" = some (Yaml.map ckvs))
    (hfile : alGet ckvs "api_token" = none)
    (henv : getEnvTrimmed env "CONFLUENCE_API_TOKEN" = none) :
    (∀ cfg, loadResult (FileState.present (Yaml.map kvs)) env ≠ Except.ok cfg) ∧
    (∀ locs, loadResult (FileState.present (Yaml.map kvs)) env =
        Except.error (ConfigError.validation locs) →
      ["confluence", "api_token"] ∈ locs) := by
  have hkne : kvs.isEmpty = false := alGet_isEmpty_false kvs "confluence" _ hconf
  have hp : parseFileData (FileState.present (Yaml.map kvs)) = Except.ok kvs :=
    parseFileData_map kvs hkne
  constructor
  · intro cfg hres
    obtain ⟨d, merged, hp', ho, hv⟩ := loadResult_ok_elim _ env cfg hres
    rw [hp] at hp'
    injection hp' with hd'
    subst hd'
    unfold overlayEnv at ho
    rw [henv] at ho
    obtain ⟨ckvs', hc', ht'⟩ :=
      overlayCore_ok_confluence_token_none _ _ _ _ _ kvs ckvs merged hconf hfile ho
    obtain ⟨hcp, _, _⟩ := validateSyncConfig_ok_parts merged cfg hv
    obtain ⟨ckvs2, hck, hvc⟩ := confluencePart_elim merged cfg.confluence hcp
    rw [hc'] at hck
    injection hck with h1
    injection h1 with h2
    subst h2
    obtain ⟨_, hft, _, _⟩ := validateConfluence_ok_fields _ _ hvc
    have hnone : reqStr ckvs' "api_token" = none := by unfold reqStr; rw [ht']
    exact Option.noConfusion (hft.symm.trans hnone)
  · intro locs hres
    unfold loadResult at hres
    rw [hp] at hres
    have h2 : (match overlayEnv env kvs with
               | Except.error e => Except.error e
               | Except.ok merged => validateSyncConfig merged) =
        Except.error (ConfigError.validation locs) := hres
    cases ho : overlayEnv env kvs with
    | error e =>
      rw [ho] at h2
      injection h2 with h3
      unfold overlayEnv at ho
      rcases overlayCore_error_cases _ _ _ _ _ _ kvs e ho with he | he <;>
        exact ConfigError.noConfusion (he.symm.trans h3)
    | ok merged =>
      rw [ho] at h2
      have hlocs := validateSyncConfig_error_locs merged locs h2
      unfold overlayEnv at ho
      rw [henv] at ho
      obtain ⟨ckvs', hc', ht'⟩ :=
        overlayCore_ok_confluence_token_none _ _ _ _ _ kvs ckvs merged hconf hfile ho
      have htr : reqStr ckvs' "api_token" = none := by unfold reqStr; rw [ht']
      rw [hlocs]
      exact syncErrLocs_mem_api_token merged ckvs' hc' htr

/-- Witness for C7: a file whose confluence mapping has `url` and `space_key`
but no `api_token`, with an empty environment. -/
theorem missing_api_token_validation_error_witness :
    loadResult (FileState.present (Yaml.map
      [("confluence", Yaml.map [("url", Yaml.str "u"), ("space_key", Yaml.str "sk")])])) [] =
      Except.error (ConfigError.validation [["confluence", "api_token"]]) ∧
    ["confluence", "api_token"] ∈ [["confluence", "api_token"]] :=
  ⟨rfl,
   (missing_api_token_validation_error []
      [("confluence", Yaml.map [("url", Yaml.str "u"), ("space_key", Yaml.str "sk")])]
      [("url", Yaml.str "u"), ("space_key", Yaml.str "sk")] rfl rfl rfl).2
     [["confluence", "api_token"]] rfl⟩

/-- Claim C8: `load` is atomic with respect to the loader's cached state: on
success the cache holds exactly the newly validated settings object, and on
failure the loader state is exactly what it was before the call. -/
theorem load_atomic_cache (fs : FileState) (env : Env) (st : ConfigState) :
    (∀ cfg, (load fs env st).2 = Except.ok cfg → (load fs env st).1 = ⟨some cfg⟩) ∧
    (∀ e, (load fs env st).2 = Except.error e → (load fs env st).1 = st) := by
  unfold load
  cases hr : loadResult fs env with
  | ok cfg =>
    constructor
    · intro cfg' hc
      have hc2 : Except.ok cfg = Except.ok cfg' := hc
      injection hc2 with hc'
      rw [hc']
    · intro e hc
      have hc2 : Except.ok cfg = Except.error e := hc
      simp at hc2
  | error e =>
    constructor
    · intro cfg hc
      have hc2 : Except.error e = Except.ok cfg := hc
      simp at hc2
    · intro e' hc
      rfl

/-- Witness for C8: a successful load caches the template settings; a failing
load (truthy non-mapping file) leaves the empty cache untouched. -/
theorem load_atomic_cache_witness :
    (load (save_template FileState.absent) [] ⟨none⟩).1 =
      ⟨some ⟨⟨"https://your-domain.atlassian.net", "your-api-token", "YOUR_SPACE_KEY", none⟩,
             "docs", ["*.tmp", ".git/*"]⟩⟩ ∧
    (load (FileState.present (Yaml.list [Yaml.str "a"])) [] ⟨none⟩).1 = ⟨none⟩ :=
  ⟨(load_atomic_cache (save_template FileState.absent) [] ⟨none⟩).1
     ⟨⟨"https://your-domain.atlassian.net", "your-api-token", "YOUR_SPACE_KEY", none⟩,
      "docs", ["*.tmp", ".git/*"]⟩ rfl,
   (load_atomic_cache (FileState.present (Yaml.list [Yaml.str "a"])) [] ⟨none⟩).2
     ConfigError.formatNotMapping rfl⟩

/-- Claim C9: an environment value among the six recognized names with
leading or trailing whitespace around non-whitespace content is stored
trimmed: the settings object carries the stripped string (for
`IGNORE_PATTERNS`, the parse of the stripped string), not the raw value. -/
theorem env_values_trimmed (fs : FileState) (env : Env) (cfg : SyncConfig)
    (h : loadResult fs env = Except.ok cfg) :
    (∀ s, getenv env "CONFLUENCE_URL" = some s → pyStrip s ≠ "" →
      cfg.confluence.url = pyStrip s) ∧
    (∀ s, getenv env "CONFLUENCE_API_TOKEN" = some s → pyStrip s ≠ "" →
      cfg.confluence.api_token = pyStrip s) ∧
    (∀ s, getenv env "CONFLUENCE_SPACE_KEY" = some s → pyStrip s ≠ "" →
      cfg.confluence.space_key = pyStrip s) ∧
    (∀ s, getenv env "CONFLUENCE_USERNAME" = some s → pyStrip s ≠ "" →
      cfg.confluence.username = some (pyStrip s)) ∧
    (∀ s, getenv env "LOCAL_PATH" = some s → pyStrip s ≠ "" →
      cfg.local_path = pyStrip s) ∧
    (∀ s, getenv env "IGNORE_PATTERNS" = some s → pyStrip s ≠ "" →
      parse_ignore_patterns (pyStrip s) = Except.ok cfg.ignore_patterns) := by
  obtain ⟨f1, f2, f3, f4, f5, f6⟩ := loadResult_ok_env_fields fs env cfg h
  exact ⟨fun s hg hb => f1 _ (getEnvTrimmed_nonblank env _ s hg hb),
         fun s hg hb => f2 _ (getEnvTrimmed_nonblank env _ s hg hb),
         fun s hg hb => f3 _ (getEnvTrimmed_nonblank env _ s hg hb),
         fun s hg hb => f4 _ (getEnvTrimmed_nonblank env _ s hg hb),
         fun s hg hb => f5 _ (getEnvTrimmed_nonblank env _ s hg hb),
         fun s hg hb => f6 _ (getEnvTrimmed_nonblank env _ s hg hb)⟩

/-- Witness for C9: env `CONFLUENCE_URL="  b  "` loads with `url = "b"`. -/
theorem env_values_trimmed_witness :
    loadResult (FileState.present (Yaml.map
      [("confluence", Yaml.map [("url", Yaml.str "a"), ("api_token", Yaml.str "t"),
                                ("space_key", Yaml.str "s")])]))
      [("CONFLUENCE_URL", "  b  ")] =
      Except.ok ⟨⟨"b", "t", "s", none⟩, "docs", []⟩ ∧
    (⟨⟨"b", "t", "s", none⟩, "docs", []⟩ : SyncConfig).confluence.url = pyStrip "  b  " :=
  ⟨rfl,
   (env_values_trimmed
      (FileState.present (Yaml.map
        [("confluence", Yaml.map [("url", Yaml.str "a"), ("api_token", Yaml.str "t"),
                                  ("space_key", Yaml.str "s")])]))
      [("CONFLUENCE_URL", "  b  ")]
      ⟨⟨"b", "t", "s", none⟩, "docs", []⟩ rfl).1 "  b  " rfl (by decide)⟩

/-- Claim C10: the "confluence must be a mapping" branch of `_overlay_env`
is unreachable — the value it tests is produced by `dict(...)`, hence always
a mapping, so for every environment and every parsed file `_overlay_env`
never yields that error. -/
theorem confluence_not_mapping_unreachable (env : Env) (d : List (String × Yaml)) :
    isConfluenceNotMappingError (overlayEnv env d) = false :=
  overlayCore_never_confluenceNotMapping _ _ _ _ _ _ d
